import Mathlib

/-!
Verification of the pointer-authentication schema-resolution and
signed-constant construction core (clang/lib/CodeGen/CGPointerAuth.cpp).

The four functions of CGPointerAuth.cpp are embedded shallowly below.
External collaborator types (the Signing Schema, the resolved Descriptor,
LLVM constants, the semantic type classification) are not part of the
given source file; they are modelled from the specification's data model.
Fatal internal assertions are modelled as `Except.error` outcomes.
-/

/-- Modelled from the spec: `AuthenticationMode` of the Signing Schema
(clang's PointerAuthenticationMode enum is not in the sources); one of
SignAndAuthenticate, SignOnly, StripOnly. -/
inductive AuthenticationMode where
  | SignAndAuthenticate
  | SignOnly
  | StripOnly
deriving DecidableEq

/-- Modelled from the spec: `DiscriminationKind` of the Signing Schema
(clang's Discrimination enum is not in the sources).  Only "none" is
implementable for function pointers; every other value is lumped into a
single `other` constructor, which is all the source consults via
`hasOtherDiscrimination`. -/
inductive Discrimination where
  | none
  | other
deriving DecidableEq

/-- Modelled from the spec: the Signing Schema record
(clang's PointerAuthSchema, not in the sources): enabled flag, key,
authentication mode, address discrimination flag, other-discrimination
kind. -/
structure PointerAuthSchema where
  enabled : Bool
  key : Nat
  mode : AuthenticationMode
  addressDiscrimination : Bool
  otherDiscrimination : Discrimination
deriving DecidableEq

/-- Accessor `isAddressDiscriminated` of the Signing Schema. -/
def PointerAuthSchema.isAddressDiscriminated (s : PointerAuthSchema) : Bool :=
  s.addressDiscrimination

/-- Accessor `hasOtherDiscrimination` of the Signing Schema. -/
def PointerAuthSchema.hasOtherDiscrimination (s : PointerAuthSchema) : Bool :=
  match s.otherDiscrimination with
  | Discrimination.none => false
  | Discrimination.other => true

/-- Accessor `getKey` of the Signing Schema. -/
def PointerAuthSchema.getKey (s : PointerAuthSchema) : Nat :=
  s.key

/-- Accessor `getAuthenticationMode` of the Signing Schema. -/
def PointerAuthSchema.getAuthenticationMode (s : PointerAuthSchema) : AuthenticationMode :=
  s.mode

/-- Modelled from the spec: the process-wide pointer-authentication options
(clang's PointerAuthOptions, not in the sources), holding the Signing
Schema for the function-pointer category, reached in the source as
`getCodeGenOpts().PointerAuth.FunctionPointers`. -/
structure PointerAuthOptions where
  FunctionPointers : PointerAuthSchema
deriving DecidableEq

/-- Modelled from the spec: an LLVM constant (`llvm::Constant`, not in the
sources), restricted to the shapes this core consumes and produces:
an opaque global pointer, the null pointer value of `UnqualPtrTy`, an
integer constant of a given bit width, a zero-cost (non-semantic) pointer
cast, and the `llvm::ConstantPtrAuth` signed-pointer constant with its
four operands (pointer, key, integer discriminator, address
discriminator). -/
inductive Constant where
  | globalPtr (id : Nat)
  | nullValue
  | intConst (bits : Nat) (value : Nat)
  | pointerCast (c : Constant)
  | ptrAuth (pointer key intDisc addrDisc : Constant)
deriving DecidableEq

/-- Whether a constant has pointer type (`UnqualPtrTy`): every constant in
the model except an integer constant. -/
def Constant.isPointerTy : Constant → Bool
  | Constant.intConst _ _ => false
  | _ => true

/-- Whether a constant is an integer constant of type `Int64Ty`; in this
model this also coincides with `cast<ConstantInt>` succeeding on an
Int64Ty-typed constant. -/
def Constant.isInt64Ty : Constant → Bool
  | Constant.intConst 64 _ => true
  | _ => false

/-- Modelled from the spec: `llvm::Constant::stripPointerCasts` (not in the
sources) — canonicalize a pointer constant by stripping all non-semantic
pointer casts. -/
def Constant.stripPointerCasts : Constant → Constant
  | Constant.pointerCast c => c.stripPointerCasts
  | c => c

/-- Modelled from the spec: the semantic type classification this core
consults (clang's QualType predicates `isFunctionType`,
`isFunctionReferenceType`, `isFunctionPointerType` are not in the
sources). A type classifies as exactly one of plain function type,
function-reference type, function-pointer type, or a non-function type. -/
inductive QualType where
  | functionTy (id : Nat)
  | functionRefTy (id : Nat)
  | functionPtrTy (id : Nat)
  | nonFunctionTy (id : Nat)
deriving DecidableEq

/-- `QualType::isFunctionType`. -/
def QualType.isFunctionType : QualType → Bool
  | QualType.functionTy _ => true
  | _ => false

/-- `QualType::isFunctionReferenceType`. -/
def QualType.isFunctionReferenceType : QualType → Bool
  | QualType.functionRefTy _ => true
  | _ => false

/-- `QualType::isFunctionPointerType`. -/
def QualType.isFunctionPointerType : QualType → Bool
  | QualType.functionPtrTy _ => true
  | _ => false

/-- Modelled from the spec: a GlobalDecl (clang's GlobalDecl, not in the
sources) — an opaque declaration handle; `getFunctionPointer` receives one
but its result must not depend on it. -/
structure GlobalDecl where
  id : Nat
deriving DecidableEq

/-- Modelled from the spec: the resolved Pointer-Authentication Descriptor
(clang's CGPointerAuthInfo, not in the sources), as a tagged variant:
either the inert sentinel (falsy, "no authentication applies") or an
enabled descriptor carrying key, mode, isIsaPointer, authenticatesNull
and an optional integer discriminator. -/
inductive CGPointerAuthInfo where
  | inert
  | enabled (key : Nat) (mode : AuthenticationMode) (isIsaPointer : Bool)
      (authenticatesNull : Bool) (discriminator : Option Constant)
deriving DecidableEq

/-- Truthiness of a Descriptor (`operator bool`): false exactly on the
inert sentinel. -/
def CGPointerAuthInfo.isActive : CGPointerAuthInfo → Bool
  | CGPointerAuthInfo.inert => false
  | CGPointerAuthInfo.enabled _ _ _ _ _ => true

/-- Accessor `getKey` of a Descriptor (only consulted on active ones). -/
def CGPointerAuthInfo.getKey : CGPointerAuthInfo → Nat
  | CGPointerAuthInfo.inert => 0
  | CGPointerAuthInfo.enabled k _ _ _ _ => k

/-- Accessor `getDiscriminator` of a Descriptor. -/
def CGPointerAuthInfo.getDiscriminator : CGPointerAuthInfo → Option Constant
  | CGPointerAuthInfo.inert => Option.none
  | CGPointerAuthInfo.enabled _ _ _ _ d => d

/-- The distinct fatal internal-contract (assertion) failures of the
source, one constructor per `assert` site. -/
inductive AssertViolation where
  | addressDiscrimination
  | otherDiscrimination
  | storageAddressType
  | otherDiscriminatorType
  | functionTypeCheck
deriving DecidableEq

deriving instance DecidableEq for Except

/-- Whether a run of an operation aborted on a fatal internal assertion. -/
def assertFailed {α : Type} : Except AssertViolation α → Bool
  | Except.error _ => true
  | Except.ok _ => false

/-- Embedding of `CodeGenModule::getFunctionPointerAuthInfo`
(CGPointerAuth.cpp lines 22-36): consult the function-pointer Signing
Schema; if disabled return the inert Descriptor; otherwise assert no
address discrimination and no other discrimination, then build the
Descriptor from the schema's key and mode with isIsaPointer = false,
authenticatesNull = false and a null discriminator.  The type argument
is taken but not consulted, as in the source. -/
def getFunctionPointerAuthInfo (opts : PointerAuthOptions) (T : QualType) :
    Except AssertViolation CGPointerAuthInfo :=
  let Schema := opts.FunctionPointers
  if !Schema.enabled then
    Except.ok CGPointerAuthInfo.inert
  else if Schema.isAddressDiscriminated then
    Except.error AssertViolation.addressDiscrimination
  else if Schema.hasOtherDiscrimination then
    Except.error AssertViolation.otherDiscrimination
  else
    Except.ok (CGPointerAuthInfo.enabled Schema.getKey Schema.getAuthenticationMode
      false false Option.none)

/-- Embedding of the static `buildConstantAddress` (CGPointerAuth.cpp lines
39-62): the address discriminator is the storage address when supplied
(asserted to have pointer type), else the null value of pointer type; the
integer discriminator is the other-discriminator when supplied (asserted
to be an Int64Ty constant integer), else the Int64 constant 0; the result
is the ConstantPtrAuth of the pointer, the key as an Int32 constant, the
integer discriminator and the address discriminator. -/
def buildConstantAddress (Pointer : Constant) (Key : Nat)
    (StorageAddress OtherDiscriminator : Option Constant) :
    Except AssertViolation Constant :=
  match StorageAddress with
  | Option.some sa =>
      if sa.isPointerTy then
        match OtherDiscriminator with
        | Option.some od =>
            if od.isInt64Ty then
              Except.ok (Constant.ptrAuth Pointer
                (Constant.intConst 32 (Key % 2 ^ 32)) od sa)
            else
              Except.error AssertViolation.otherDiscriminatorType
        | Option.none =>
            Except.ok (Constant.ptrAuth Pointer
              (Constant.intConst 32 (Key % 2 ^ 32)) (Constant.intConst 64 0) sa)
      else
        Except.error AssertViolation.storageAddressType
  | Option.none =>
      match OtherDiscriminator with
      | Option.some od =>
          if od.isInt64Ty then
            Except.ok (Constant.ptrAuth Pointer
              (Constant.intConst 32 (Key % 2 ^ 32)) od Constant.nullValue)
          else
            Except.error AssertViolation.otherDiscriminatorType
      | Option.none =>
          Except.ok (Constant.ptrAuth Pointer
            (Constant.intConst 32 (Key % 2 ^ 32)) (Constant.intConst 64 0)
            Constant.nullValue)

/-- Embedding of `CodeGenModule::getConstantSignedPointer`
(CGPointerAuth.cpp lines 64-73): strip pointer casts from the pointer,
then build the ptrauth constant. -/
def getConstantSignedPointer (Pointer : Constant) (Key : Nat)
    (StorageAddress OtherDiscriminator : Option Constant) :
    Except AssertViolation Constant :=
  buildConstantAddress Pointer.stripPointerCasts Key StorageAddress OtherDiscriminator

/-- Embedding of `CodeGenModule::getFunctionPointer` (CGPointerAuth.cpp
lines 85-99): assert the type is function-like; resolve the Descriptor;
if active, sign the pointer with the Descriptor's key, no storage
address, and the Descriptor's discriminator; otherwise return the
pointer unchanged.  The GlobalDecl argument is taken but not consulted,
as in the source. -/
def getFunctionPointer (opts : PointerAuthOptions) (Pointer : Constant)
    (FunctionType : QualType) (GD : GlobalDecl) :
    Except AssertViolation Constant :=
  if !(FunctionType.isFunctionType || FunctionType.isFunctionReferenceType ||
      FunctionType.isFunctionPointerType) then
    Except.error AssertViolation.functionTypeCheck
  else
    match getFunctionPointerAuthInfo opts FunctionType with
    | Except.error e => Except.error e
    | Except.ok PointerAuth =>
        if PointerAuth.isActive then
          getConstantSignedPointer Pointer PointerAuth.getKey Option.none
            PointerAuth.getDiscriminator
        else
          Except.ok Pointer

/-- A chain of `n` zero-cost pointer casts wrapped around a constant. -/
def applyPointerCasts : Nat → Constant → Constant
  | 0, c => c
  | n + 1, c => Constant.pointerCast (applyPointerCasts n c)

/-- Stripping casts from a cast chain gives the same canonical pointer as
stripping casts from the underlying constant. -/
theorem stripPointerCasts_applyPointerCasts (n : Nat) (P : Constant) :
    (applyPointerCasts n P).stripPointerCasts = P.stripPointerCasts := by
  induction n with
  | zero => rfl
  | succ n ih =>
      simp only [applyPointerCasts, Constant.stripPointerCasts]
      exact ih

/-- C1: Identity law — for every constant pointer `P` and every
function-like type `T`, when the function-pointer Signing Schema is
disabled (so the resolved Descriptor is the inert sentinel),
`getFunctionPointer` returns `P` itself, unchanged. -/
theorem getFunctionPointer_identity_of_inert
    (opts : PointerAuthOptions) (P : Constant) (T : QualType) (GD : GlobalDecl)
    (hT : (T.isFunctionType || T.isFunctionReferenceType ||
      T.isFunctionPointerType) = true)
    (hdis : opts.FunctionPointers.enabled = false) :
    getFunctionPointer opts P T GD = Except.ok P := by
  simp [getFunctionPointer, getFunctionPointerAuthInfo, hT, hdis,
    CGPointerAuthInfo.isActive]

/-- C1 witness: at a concrete disabled schema, a concrete global pointer and
a concrete function type, the entry point is the identity. -/
theorem getFunctionPointer_identity_of_inert_witness :
    getFunctionPointer
      ⟨⟨false, 0, AuthenticationMode.SignAndAuthenticate, false, Discrimination.none⟩⟩
      (Constant.globalPtr 0) (QualType.functionTy 0) ⟨0⟩ =
      Except.ok (Constant.globalPtr 0) :=
  getFunctionPointer_identity_of_inert
    ⟨⟨false, 0, AuthenticationMode.SignAndAuthenticate, false, Discrimination.none⟩⟩
    (Constant.globalPtr 0) (QualType.functionTy 0) ⟨0⟩ (by decide) (by decide)

/-- C2: Descriptor fidelity — for every function type, when the
function-pointer Signing Schema is enabled (and, as the data-model
invariant requires for this category, has no address discrimination and
no other discrimination so that the assertions pass),
`getFunctionPointerAuthInfo` returns the Descriptor with the schema's key
and mode, `isIsaPointer = false`, `authenticatesNull = false` and an
empty discriminator. -/
theorem getFunctionPointerAuthInfo_descriptor_fidelity
    (opts : PointerAuthOptions) (T : QualType)
    (hen : opts.FunctionPointers.enabled = true)
    (had : opts.FunctionPointers.isAddressDiscriminated = false)
    (hod : opts.FunctionPointers.hasOtherDiscrimination = false) :
    getFunctionPointerAuthInfo opts T =
      Except.ok (CGPointerAuthInfo.enabled opts.FunctionPointers.key
        opts.FunctionPointers.mode false false Option.none) := by
  simp [getFunctionPointerAuthInfo, hen, had, hod,
    PointerAuthSchema.getKey, PointerAuthSchema.getAuthenticationMode]

/-- C2 witness: at a concrete enabled schema with key 7 and mode
SignAndAuthenticate, the resolver returns exactly that Descriptor. -/
theorem getFunctionPointerAuthInfo_descriptor_fidelity_witness :
    getFunctionPointerAuthInfo
      ⟨⟨true, 7, AuthenticationMode.SignAndAuthenticate, false, Discrimination.none⟩⟩
      (QualType.functionTy 0) =
      Except.ok (CGPointerAuthInfo.enabled 7 AuthenticationMode.SignAndAuthenticate
        false false Option.none) :=
  getFunctionPointerAuthInfo_descriptor_fidelity
    ⟨⟨true, 7, AuthenticationMode.SignAndAuthenticate, false, Discrimination.none⟩⟩
    (QualType.functionTy 0) (by decide) (by decide) (by decide)

/-- C3: Cast invariance — for every constant pointer `P`, every chain of
zero-cost pointer casts, every key, every optional storage address and
every optional other-discriminator, signing the cast-wrapped pointer
equals signing `P` itself. -/
theorem getConstantSignedPointer_cast_invariance
    (n : Nat) (P : Constant) (k : Nat) (sa od : Option Constant) :
    getConstantSignedPointer (applyPointerCasts n P) k sa od =
      getConstantSignedPointer P k sa od := by
  unfold getConstantSignedPointer
  rw [stripPointerCasts_applyPointerCasts]

/-- C4 counterexample: with the schema of scenario B (enabled, key 0, mode
SignAndAuthenticate), a raw pointer that is a cast-wrapped global does
NOT produce a signed constant whose basePointer is that raw pointer
itself: the basePointer is the cast-stripped pointer instead. -/
theorem getFunctionPointer_scenarioB_counterexample :
    getFunctionPointer
      ⟨⟨true, 0, AuthenticationMode.SignAndAuthenticate, false, Discrimination.none⟩⟩
      (Constant.pointerCast (Constant.globalPtr 0)) (QualType.functionTy 0) ⟨0⟩ ≠
      Except.ok (Constant.ptrAuth (Constant.pointerCast (Constant.globalPtr 0))
        (Constant.intConst 32 0) (Constant.intConst 64 0) Constant.nullValue) := by
  decide

/-- C4 (amended): with the function-pointer Signing Schema enabled with key
0 and mode SignAndAuthenticate (and no discrimination, so the assertions
pass), for every raw constant pointer and every function-like type, the
entry point returns the Signed Pointer Constant whose basePointer is the
cast-stripped canonical form of the raw pointer (the raw pointer itself
whenever it carries no casts), whose key is 0, whose integer
discriminator is the 64-bit integer 0, and whose address discriminator
is the null pointer sentinel. -/
theorem getFunctionPointer_scenarioB
    (opts : PointerAuthOptions) (rawPtr : Constant) (T : QualType) (GD : GlobalDecl)
    (hT : (T.isFunctionType || T.isFunctionReferenceType ||
      T.isFunctionPointerType) = true)
    (hen : opts.FunctionPointers.enabled = true)
    (hk : opts.FunctionPointers.key = 0)
    (hm : opts.FunctionPointers.mode = AuthenticationMode.SignAndAuthenticate)
    (had : opts.FunctionPointers.isAddressDiscriminated = false)
    (hod : opts.FunctionPointers.hasOtherDiscrimination = false) :
    getFunctionPointer opts rawPtr T GD =
      Except.ok (Constant.ptrAuth rawPtr.stripPointerCasts
        (Constant.intConst 32 0) (Constant.intConst 64 0) Constant.nullValue) := by
  simp [getFunctionPointer, getFunctionPointerAuthInfo, hT, hen, had, hod,
    CGPointerAuthInfo.isActive, CGPointerAuthInfo.getKey,
    CGPointerAuthInfo.getDiscriminator, PointerAuthSchema.getKey,
    PointerAuthSchema.getAuthenticationMode, hk,
    getConstantSignedPointer, buildConstantAddress]

/-- C4 witness: scenario B at a concrete cast-free global pointer. -/
theorem getFunctionPointer_scenarioB_witness :
    getFunctionPointer
      ⟨⟨true, 0, AuthenticationMode.SignAndAuthenticate, false, Discrimination.none⟩⟩
      (Constant.globalPtr 5) (QualType.functionTy 0) ⟨0⟩ =
      Except.ok (Constant.ptrAuth (Constant.globalPtr 5)
        (Constant.intConst 32 0) (Constant.intConst 64 0) Constant.nullValue) :=
  getFunctionPointer_scenarioB
    ⟨⟨true, 0, AuthenticationMode.SignAndAuthenticate, false, Discrimination.none⟩⟩
    (Constant.globalPtr 5) (QualType.functionTy 0) ⟨0⟩
    (by decide) (by decide) (by decide) (by decide) (by decide) (by decide)

/-- C5: Default substitution — for every constant pointer and every key,
signing with an absent storage address and an absent other-discriminator
produces the Signed Pointer Constant whose address discriminator is the
null value of pointer type and whose integer discriminator is the
64-bit integer constant 0. -/
theorem getConstantSignedPointer_default_substitution (P : Constant) (k : Nat) :
    getConstantSignedPointer P k Option.none Option.none =
      Except.ok (Constant.ptrAuth P.stripPointerCasts
        (Constant.intConst 32 (k % 2 ^ 32)) (Constant.intConst 64 0)
        Constant.nullValue) := by
  simp [getConstantSignedPointer, buildConstantAddress]

/-- C6: Explicit override — for every constant pointer and key, supplying a
non-absent (pointer-typed) storage address makes the address
discriminator exactly that storage address, and supplying a non-absent
(Int64 constant) other-discriminator makes the integer discriminator
exactly that value, unmodified, in every present/absent combination. -/
theorem getConstantSignedPointer_explicit_override
    (P sa od : Constant) (k : Nat)
    (hsa : sa.isPointerTy = true) (hod : od.isInt64Ty = true) :
    getConstantSignedPointer P k (Option.some sa) Option.none =
      Except.ok (Constant.ptrAuth P.stripPointerCasts
        (Constant.intConst 32 (k % 2 ^ 32)) (Constant.intConst 64 0) sa) ∧
    getConstantSignedPointer P k Option.none (Option.some od) =
      Except.ok (Constant.ptrAuth P.stripPointerCasts
        (Constant.intConst 32 (k % 2 ^ 32)) od Constant.nullValue) ∧
    getConstantSignedPointer P k (Option.some sa) (Option.some od) =
      Except.ok (Constant.ptrAuth P.stripPointerCasts
        (Constant.intConst 32 (k % 2 ^ 32)) od sa) := by
  refine ⟨?_, ?_, ?_⟩ <;>
    simp [getConstantSignedPointer, buildConstantAddress, hsa, hod]

/-- C6 witness: a concrete storage address and a concrete Int64
other-discriminator each pass through unmodified. -/
theorem getConstantSignedPointer_explicit_override_witness :
    getConstantSignedPointer (Constant.globalPtr 0) 2
      (Option.some (Constant.globalPtr 1)) Option.none =
      Except.ok (Constant.ptrAuth (Constant.globalPtr 0) (Constant.intConst 32 2)
        (Constant.intConst 64 0) (Constant.globalPtr 1)) ∧
    getConstantSignedPointer (Constant.globalPtr 0) 2 Option.none
      (Option.some (Constant.intConst 64 5)) =
      Except.ok (Constant.ptrAuth (Constant.globalPtr 0) (Constant.intConst 32 2)
        (Constant.intConst 64 5) Constant.nullValue) ∧
    getConstantSignedPointer (Constant.globalPtr 0) 2
      (Option.some (Constant.globalPtr 1)) (Option.some (Constant.intConst 64 5)) =
      Except.ok (Constant.ptrAuth (Constant.globalPtr 0) (Constant.intConst 32 2)
        (Constant.intConst 64 5) (Constant.globalPtr 1)) :=
  getConstantSignedPointer_explicit_override
    (Constant.globalPtr 0) (Constant.globalPtr 1) (Constant.intConst 64 5) 2
    (by decide) (by decide)

/-- C7: Invalid category usage is fatal — whenever the function-pointer
Signing Schema is enabled and requests address discrimination or any
other-discrimination kind, `getFunctionPointerAuthInfo` aborts on an
internal assertion; and under the precondition that the enabled schema
has neither, the failure branch is unreachable and a Descriptor is
returned. -/
theorem getFunctionPointerAuthInfo_invalid_category_fatal
    (opts : PointerAuthOptions) (T : QualType) :
    (opts.FunctionPointers.enabled = true →
      (opts.FunctionPointers.isAddressDiscriminated = true ∨
        opts.FunctionPointers.hasOtherDiscrimination = true) →
      assertFailed (getFunctionPointerAuthInfo opts T) = true) ∧
    (opts.FunctionPointers.enabled = true →
      opts.FunctionPointers.isAddressDiscriminated = false →
      opts.FunctionPointers.hasOtherDiscrimination = false →
      assertFailed (getFunctionPointerAuthInfo opts T) = false) := by
  constructor
  · intro hen hbad
    rcases hbad with had | hod
    · simp [getFunctionPointerAuthInfo, hen, had, assertFailed]
    · by_cases had : opts.FunctionPointers.isAddressDiscriminated = true <;>
        simp_all [getFunctionPointerAuthInfo, assertFailed]
  · intro hen had hod
    simp [getFunctionPointerAuthInfo, hen, had, hod, assertFailed]

/-- C7 witness: a concrete enabled address-discriminated schema aborts; a
concrete enabled schema with no discrimination does not. -/
theorem getFunctionPointerAuthInfo_invalid_category_fatal_witness :
    assertFailed (getFunctionPointerAuthInfo
      ⟨⟨true, 0, AuthenticationMode.SignAndAuthenticate, true, Discrimination.none⟩⟩
      (QualType.functionTy 0)) = true ∧
    assertFailed (getFunctionPointerAuthInfo
      ⟨⟨true, 0, AuthenticationMode.SignAndAuthenticate, false, Discrimination.none⟩⟩
      (QualType.functionTy 0)) = false :=
  ⟨(getFunctionPointerAuthInfo_invalid_category_fatal
      ⟨⟨true, 0, AuthenticationMode.SignAndAuthenticate, true, Discrimination.none⟩⟩
      (QualType.functionTy 0)).1 (by decide) (Or.inl (by decide)),
   (getFunctionPointerAuthInfo_invalid_category_fatal
      ⟨⟨true, 0, AuthenticationMode.SignAndAuthenticate, false, Discrimination.none⟩⟩
      (QualType.functionTy 0)).2 (by decide) (by decide) (by decide)⟩

/-- C8: Invalid input type is fatal — for every type that is not a
function, function-reference, or function-pointer type,
`getFunctionPointer` takes the fatal type-assertion path rather than
returning any value; for every type satisfying the precondition that
assertion passes (the type-assertion failure never occurs). -/
theorem getFunctionPointer_invalid_type_fatal
    (opts : PointerAuthOptions) (P : Constant) (T : QualType) (GD : GlobalDecl) :
    (T.isFunctionType = false → T.isFunctionReferenceType = false →
      T.isFunctionPointerType = false →
      getFunctionPointer opts P T GD =
        Except.error AssertViolation.functionTypeCheck) ∧
    ((T.isFunctionType || T.isFunctionReferenceType ||
        T.isFunctionPointerType) = true →
      getFunctionPointer opts P T GD ≠
        Except.error AssertViolation.functionTypeCheck) := by
  constructor
  · intro h1 h2 h3
    simp [getFunctionPointer, h1, h2, h3]
  · intro hT
    rcases opts with ⟨⟨en, key, mode, ad, odk⟩⟩
    cases en <;> cases ad <;> cases odk <;>
      simp [getFunctionPointer, getFunctionPointerAuthInfo, hT,
        PointerAuthSchema.isAddressDiscriminated,
        PointerAuthSchema.hasOtherDiscrimination,
        CGPointerAuthInfo.isActive, CGPointerAuthInfo.getKey,
        CGPointerAuthInfo.getDiscriminator, PointerAuthSchema.getKey,
        PointerAuthSchema.getAuthenticationMode,
        getConstantSignedPointer, buildConstantAddress]

/-- C8 witness: a concrete non-function type aborts on the type assertion;
a concrete function type never fails that assertion. -/
theorem getFunctionPointer_invalid_type_fatal_witness :
    getFunctionPointer
      ⟨⟨false, 0, AuthenticationMode.SignAndAuthenticate, false, Discrimination.none⟩⟩
      (Constant.globalPtr 0) (QualType.nonFunctionTy 0) ⟨0⟩ =
      Except.error AssertViolation.functionTypeCheck ∧
    getFunctionPointer
      ⟨⟨false, 0, AuthenticationMode.SignAndAuthenticate, false, Discrimination.none⟩⟩
      (Constant.globalPtr 0) (QualType.functionTy 0) ⟨0⟩ ≠
      Except.error AssertViolation.functionTypeCheck :=
  ⟨(getFunctionPointer_invalid_type_fatal
      ⟨⟨false, 0, AuthenticationMode.SignAndAuthenticate, false, Discrimination.none⟩⟩
      (Constant.globalPtr 0) (QualType.nonFunctionTy 0) ⟨0⟩).1
      (by decide) (by decide) (by decide),
   (getFunctionPointer_invalid_type_fatal
      ⟨⟨false, 0, AuthenticationMode.SignAndAuthenticate, false, Discrimination.none⟩⟩
      (Constant.globalPtr 0) (QualType.functionTy 0) ⟨0⟩).2 (by decide)⟩

/-- C9: Determinism — two calls of the resolver on equal options and types
produce structurally equal Descriptors, and two calls of the builder on
equal pointers, keys and discriminator arguments produce structurally
equal Signed Pointer Constants. -/
theorem resolver_and_builder_deterministic
    (opts opts' : PointerAuthOptions) (T T' : QualType)
    (P P' : Constant) (k k' : Nat) (sa sa' od od' : Option Constant)
    (h1 : opts = opts') (h2 : T = T') (h3 : P = P') (h4 : k = k')
    (h5 : sa = sa') (h6 : od = od') :
    getFunctionPointerAuthInfo opts T = getFunctionPointerAuthInfo opts' T' ∧
    getConstantSignedPointer P k sa od =
      getConstantSignedPointer P' k' sa' od' := by
  subst h1; subst h2; subst h3; subst h4; subst h5; subst h6
  exact ⟨rfl, rfl⟩

/-- C9 witness: two-run equality at concrete equal inputs. -/
theorem resolver_and_builder_deterministic_witness :
    getFunctionPointerAuthInfo
      ⟨⟨true, 7, AuthenticationMode.SignOnly, false, Discrimination.none⟩⟩
      (QualType.functionTy 0) =
      getFunctionPointerAuthInfo
        ⟨⟨true, 7, AuthenticationMode.SignOnly, false, Discrimination.none⟩⟩
        (QualType.functionTy 0) ∧
    getConstantSignedPointer (Constant.globalPtr 3) 1 Option.none Option.none =
      getConstantSignedPointer (Constant.globalPtr 3) 1 Option.none Option.none :=
  resolver_and_builder_deterministic
    ⟨⟨true, 7, AuthenticationMode.SignOnly, false, Discrimination.none⟩⟩
    ⟨⟨true, 7, AuthenticationMode.SignOnly, false, Discrimination.none⟩⟩
    (QualType.functionTy 0) (QualType.functionTy 0)
    (Constant.globalPtr 3) (Constant.globalPtr 3) 1 1
    Option.none Option.none Option.none Option.none
    rfl rfl rfl rfl rfl rfl

/-- C10: GlobalDecl noninterference — for every constant pointer, type and
schema, the result of `getFunctionPointer` is the same for any two
GlobalDecl arguments; the declaration argument is never consulted. -/
theorem getFunctionPointer_globalDecl_noninterference
    (opts : PointerAuthOptions) (P : Constant) (T : QualType)
    (GD1 GD2 : GlobalDecl) :
    getFunctionPointer opts P T GD1 = getFunctionPointer opts P T GD2 := rfl
